import Mathlib

/-!
Verification of the ldb ACL read module (source4/dsdb/samdb/ldb_modules/acl_read.c).

The development shallowly embeds the module: the per-entry callback
(aclread_callback, LDB_REPLY_ENTRY arm), the parent-visibility check with its
single-slot cache (aclread_check_parent), the security-descriptor fetch with
its single-slot parse cache (aclread_get_sd_from_ldb_message), and the
query-augmentation and base-visibility logic of aclread_search.  External
collaborators (the schema, the access-check primitive, the NDR decoder, the
ldb helpers that parse attribute values) are modelled as explicit function
parameters gathered in environment structures.
-/

/- ## ldb error codes (ldb.h) -/

def LDB_SUCCESS : Nat := 0
def LDB_ERR_OPERATIONS_ERROR : Nat := 1
def LDB_ERR_NO_SUCH_OBJECT : Nat := 32
def LDB_ERR_INSUFFICIENT_ACCESS_RIGHTS : Nat := 50

/- ## security access mask bits (security.idl) -/

def SEC_STD_READ_CONTROL : Nat := 0x00020000
def SEC_FLAG_SYSTEM_SECURITY : Nat := 0x01000000
def SEC_ADS_LIST : Nat := 0x00000004
def SEC_ADS_READ_PROP : Nat := 0x00000010
def SEC_ADS_CONTROL_ACCESS : Nat := 0x00000100

/- ## SD-flags control bits (SECINFO granularity) -/

def SECINFO_OWNER : Nat := 1
def SECINFO_GROUP : Nat := 2
def SECINFO_DACL : Nat := 4
def SECINFO_SACL : Nat := 8

/- ## schema searchFlags bit -/

def SEARCH_FLAG_CONFIDENTIAL : Nat := 0x00000800

/- ## instanceType bit -/

def INSTANCE_TYPE_IS_NC_HEAD : Nat := 0x00000001

/- ## DNs

A distinguished name is modelled as the list of its components, most specific
first (as in "cn=u,ou=o,dc=d" becoming ["cn=u", "ou=o", "dc=d"]).  The null DN
is the empty list.  Specialness of the search base (ldb_dn_is_special) is a
syntactic property of the DN text and is carried separately as a Boolean in
the search-request model. -/

abbrev Dn := List String

/-- Models ldb_dn_is_null: the DN with no components. -/
def ldb_dn_is_null (d : Dn) : Bool := d.isEmpty

/-- Models ldb_dn_get_parent: drop the most specific component. -/
def ldb_dn_get_parent (d : Dn) : Dn := d.tail

/-- Models ldb_dn_compare_base(base, dn) == 0: base is an ancestor of dn or
equal to it, i.e. the components of base are a suffix of those of dn. -/
def ldb_dn_compare_base_eq (base d : Dn) : Bool := base.isSuffixOf d

/- ## attribute names

ldb compares attribute names ASCII-case-insensitively (ldb_attr_cmp). -/

/-- ASCII lower-casing of one character, as used by ldb_attr_cmp. -/
def ascii_tolower (c : Char) : Char :=
  if 'A' ≤ c ∧ c ≤ 'Z' then Char.ofNat (c.toNat + 32) else c

/-- Models ldb_attr_cmp(a, b) == 0: ASCII-case-insensitive equality. -/
def ldb_attr_cmp_eq (a b : String) : Bool :=
  a.data.map ascii_tolower == b.data.map ascii_tolower

/-- Models ldb_attr_in_list: membership up to ldb_attr_cmp. -/
def ldb_attr_in_list (attrs : List String) (a : String) : Bool :=
  attrs.any (fun x => ldb_attr_cmp_eq x a)

/- ## messages -/

/-- One message element: an attribute name, its values (opaque byte blobs),
and the LDB_FLAG_INTERNAL_INACCESSIBLE_ATTRIBUTE flag bit used by this
module, modelled as the Boolean inaccessible. -/
structure MsgElement where
  name : String
  values : List (List Nat)
  inaccessible : Bool := false
deriving DecidableEq

/-- An ldb message: a DN plus an ordered list of elements. -/
structure LdbMessage where
  dn : Dn
  elements : List MsgElement
deriving DecidableEq

/-- Models aclread_mark_inaccesslible (the flag set at acl_read.c:67). -/
def aclread_mark_inaccesslible (el : MsgElement) : MsgElement :=
  { el with inaccessible := true }

/-- Models aclread_is_inaccessible (the flag test at acl_read.c:71). -/
def aclread_is_inaccessible (el : MsgElement) : Bool := el.inaccessible

/-- Models ldb_msg_find_element: first element matching the name up to
ldb_attr_cmp. -/
def ldb_msg_find_element (msg : LdbMessage) (name : String) : Option MsgElement :=
  msg.elements.find? (fun e => ldb_attr_cmp_eq e.name name)

/-- Models ldb_msg_remove_attr applied to an element list: remove every
element whose name matches (the ldb helper loops until no match remains). -/
def ldb_msg_remove_attr (name : String) (els : List MsgElement) : List MsgElement :=
  els.filter (fun el => !ldb_attr_cmp_eq el.name name)

/- ## external collaborators -/

/-- A parsed security descriptor, opaque to this module: the module only
hands it to the external access-check primitive. -/
structure SecurityDescriptor where
  id : Nat
deriving DecidableEq

/-- A schema attribute as consumed here: its lDAPDisplayName and its
searchFlags word (SEARCH_FLAG_CONFIDENTIAL is the only bit inspected). -/
structure DsdbAttribute where
  lDAPDisplayName : String
  searchFlags : Nat
deriving DecidableEq

/-- The most specific structural object class of an entry, opaque here. -/
structure DsdbClass where
  lDAPDisplayName : String
deriving DecidableEq

/-- An object SID, opaque here. -/
abbrev DomSid := Nat

/-- The external collaborators consumed by the callback path, fixed for the
lifetime of one query: the schema lookups, the access-check primitive (both
the on-DN form used for parent visibility and the per-attribute form), the
NDR security-descriptor decoder, and the ldb helpers that extract typed
values from a message (samdb_result_dom_sid, ldb_msg_find_attr_as_uint with
default 0).  The search-filter membership test dsdb_attr_in_parse_tree on
the fixed request tree is also carried here as a predicate on names. -/
structure AclEnv where
  schema_attr : String → Option DsdbAttribute
  structural_oc : LdbMessage → Option DsdbClass
  check_access_on_dn : Dn → Nat → Nat
  check_access_on_attribute :
    SecurityDescriptor → Option DomSid → Nat → DsdbAttribute → DsdbClass → Nat
  ndr_pull_security_descriptor : List Nat → Option SecurityDescriptor
  result_dom_sid : LdbMessage → Option DomSid
  msg_uint : LdbMessage → String → Nat
  attr_in_parse_tree : String → Bool

/- ## module state -/

/-- Models struct aclread_context (acl_read.c:42): the original attribute
list of the request, the SD-flags granularity, the per-attribute synthetic
flags, the dirsync mode flag, and the single-slot parent cache. -/
structure AclreadContext where
  attrs : Option (List String)
  sd_flags : Nat
  added_nTSecurityDescriptor : Bool
  added_instanceType : Bool
  added_objectSid : Bool
  added_objectClass : Bool
  indirsync : Bool
  last_parent_dn : Option Dn
  last_parent_check_ret : Nat
deriving DecidableEq

/-- Models struct aclread_private (acl_read.c:59): the deployment switch and
the single-slot security-descriptor parse cache. -/
structure AclreadPrivate where
  enabled : Bool
  sd_cached : Option SecurityDescriptor
  sd_cached_blob : Option (List Nat)
deriving DecidableEq

/- ## aclread_check_parent (acl_read.c:86) -/

/-- The cache-miss path of aclread_check_parent (acl_read.c:127): compute the
immediate parent, invoke the access check with SEC_ADS_LIST, replace the
cached slot, return the fresh verdict. -/
def aclread_check_parent_fresh (env : AclEnv) (ac : AclreadContext) (msgDn : Dn) :
    Nat × AclreadContext :=
  let parent_dn := ldb_dn_get_parent msgDn
  let ret := env.check_access_on_dn parent_dn SEC_ADS_LIST
  (ret, { ac with last_parent_dn := some parent_dn, last_parent_check_ret := ret })

/-- Models aclread_check_parent (acl_read.c:86): serve the cached verdict
only when the cheap base comparison succeeds and the exact immediate parent
equals the cached parent; otherwise run the fresh check and refill the
slot. -/
def aclread_check_parent (env : AclEnv) (ac : AclreadContext) (msgDn : Dn) :
    Nat × AclreadContext :=
  match ac.last_parent_dn with
  | some last =>
    if ldb_dn_compare_base_eq last msgDn then
      if last = ldb_dn_get_parent msgDn then
        (ac.last_parent_check_ret, ac)
      else
        aclread_check_parent_fresh env ac msgDn
    else
      aclread_check_parent_fresh env ac msgDn
  | none => aclread_check_parent_fresh env ac msgDn

/- ## aclread_get_sd_from_ldb_message (acl_read.c:164) -/

/-- The cache-miss path of aclread_get_sd_from_ldb_message: decode the raw
blob (failure is an operations error) and refill the single cache slot.
The steal-versus-duplicate choice for the cached blob (acl_read.c:212) is
memory management only and has no observable effect in this model. -/
def aclread_parse_sd (env : AclEnv) (priv : AclreadPrivate) (blob : List Nat) :
    Except Nat (SecurityDescriptor × AclreadPrivate) :=
  match env.ndr_pull_security_descriptor blob with
  | none => .error LDB_ERR_OPERATIONS_ERROR
  | some sd =>
    .ok (sd, { priv with sd_cached := some sd, sd_cached_blob := some blob })

/-- Models aclread_get_sd_from_ldb_message (acl_read.c:164): missing
descriptor attribute is an insufficient-access error, a multi-valued one is
an operations error; a byte-identical cached blob returns the cached parse,
otherwise the blob is decoded and the cache slot replaced. -/
def aclread_get_sd_from_ldb_message (env : AclEnv) (_ac : AclreadContext)
    (priv : AclreadPrivate) (msg : LdbMessage) :
    Except Nat (SecurityDescriptor × AclreadPrivate) :=
  match ldb_msg_find_element msg "nTSecurityDescriptor" with
  | none => .error LDB_ERR_INSUFFICIENT_ACCESS_RIGHTS
  | some sd_element =>
    match sd_element.values with
    | [blob] =>
      match priv.sd_cached, priv.sd_cached_blob with
      | some cached, some cblob =>
        if blob = cblob then .ok (cached, priv)
        else aclread_parse_sd env priv blob
      | some _, none => aclread_parse_sd env priv blob
      | none, _ => aclread_parse_sd env priv blob
    | _ => .error LDB_ERR_OPERATIONS_ERROR

/- ## the per-attribute check (loop body of aclread_callback, acl_read.c:306) -/

/-- The access mask computed at acl_read.c:345-364: for nTSecurityDescriptor,
READ_CONTROL when owner, group or DACL granularity is requested and
SYSTEM_SECURITY when SACL is; READ_PROP for everything else; a confidential
attribute additionally requires CONTROL_ACCESS. -/
def aclread_access_mask (sd_flags : Nat) (is_sd : Bool) (searchFlags : Nat) : Nat :=
  let base :=
    if is_sd then
      (if sd_flags &&& (SECINFO_OWNER ||| SECINFO_GROUP) ≠ 0
         then SEC_STD_READ_CONTROL else 0) |||
      (if sd_flags &&& SECINFO_DACL ≠ 0 then SEC_STD_READ_CONTROL else 0) |||
      (if sd_flags &&& SECINFO_SACL ≠ 0 then SEC_FLAG_SYSTEM_SECURITY else 0)
    else
      SEC_ADS_READ_PROP
  if searchFlags &&& SEARCH_FLAG_CONFIDENTIAL ≠ 0 then
    base ||| SEC_ADS_CONTROL_ACCESS
  else
    base

/-- Outcome of the loop body for one element of the streamed entry:
abort the query (goto fail), silently drop the whole entry (return
LDB_SUCCESS without forwarding), keep the (possibly marked) element and
continue, or (dirsync only) stop the loop after scheduling the removal of
replPropertyMetaData. -/
inductive ElemStep where
  | abort (err : Nat)
  | dropEntry
  | keep (el : MsgElement)
  | breakRemove (el : MsgElement)
deriving DecidableEq

/-- Models one iteration of the per-element loop of aclread_callback
(acl_read.c:306-421): schema lookup, synthetic-attribute stripping, access
mask computation, the zero-mask early exit, the access check, and the
denial policies of normal and dirsync mode. -/
def aclread_element_step (env : AclEnv) (ac : AclreadContext)
    (sd : SecurityDescriptor) (sid : Option DomSid) (objectclass : DsdbClass)
    (el : MsgElement) : ElemStep :=
  match env.schema_attr el.name with
  | none => .abort LDB_ERR_OPERATIONS_ERROR
  | some attr =>
    if ldb_attr_cmp_eq "objectSid" el.name && ac.added_objectSid then
      .keep (aclread_mark_inaccesslible el)
    else if ldb_attr_cmp_eq "instanceType" el.name && ac.added_instanceType then
      .keep (aclread_mark_inaccesslible el)
    else if ldb_attr_cmp_eq "objectClass" el.name && ac.added_objectClass then
      .keep (aclread_mark_inaccesslible el)
    else if ldb_attr_cmp_eq "nTSecurityDescriptor" el.name
              && ac.added_nTSecurityDescriptor then
      .keep (aclread_mark_inaccesslible el)
    else if aclread_access_mask ac.sd_flags
              (ldb_attr_cmp_eq "nTSecurityDescriptor" el.name) attr.searchFlags = 0 then
      .keep (aclread_mark_inaccesslible el)
    else if env.check_access_on_attribute sd sid
              (aclread_access_mask ac.sd_flags
                (ldb_attr_cmp_eq "nTSecurityDescriptor" el.name) attr.searchFlags)
              attr objectclass = LDB_ERR_INSUFFICIENT_ACCESS_RIGHTS then
      if !ac.indirsync then
        if env.attr_in_parse_tree el.name then .dropEntry
        else .keep (aclread_mark_inaccesslible el)
      else
        if env.attr_in_parse_tree el.name then .breakRemove el
        else .keep (aclread_mark_inaccesslible el)
    else if env.check_access_on_attribute sd sid
              (aclread_access_mask ac.sd_flags
                (ldb_attr_cmp_eq "nTSecurityDescriptor" el.name) attr.searchFlags)
              attr objectclass ≠ LDB_SUCCESS then
      .abort (env.check_access_on_attribute sd sid
                (aclread_access_mask ac.sd_flags
                  (ldb_attr_cmp_eq "nTSecurityDescriptor" el.name) attr.searchFlags)
                attr objectclass)
    else .keep el

/-- Result of running the whole per-element loop: abort, drop the entry, or
finish with the final (in-place mutated) element list of the message. -/
inductive LoopOut where
  | abort (err : Nat)
  | dropEntry
  | elems (els : List MsgElement)
deriving DecidableEq

/-- The per-element loop of aclread_callback, as a fold over the element
list.  acc holds the already-processed prefix (mutated in place in the C
code).  The dirsync breakRemove arm removes replPropertyMetaData from the
whole message (processed prefix included) and stops, leaving the unprocessed
suffix untouched, exactly as the break at acl_read.c:408. -/
def aclread_elements_loop (step : MsgElement → ElemStep) (acc : List MsgElement) :
    List MsgElement → LoopOut
  | [] => .elems acc
  | el :: rest =>
    match step el with
    | .abort e => .abort e
    | .dropEntry => .dropEntry
    | .breakRemove el' =>
      .elems (ldb_msg_remove_attr "replPropertyMetaData" (acc ++ el' :: rest))
    | .keep el' => aclread_elements_loop step (acc ++ [el']) rest

/- ## reassembly and the callback (acl_read.c:231) -/

/-- Models the reassembly at acl_read.c:423-456: the outgoing message keeps
the DN and exactly the elements not marked inaccessible, in order. -/
def aclread_reassemble (dn : Dn) (els : List MsgElement) : LdbMessage :=
  { dn := dn, elements := els.filter (fun el => !aclread_is_inaccessible el) }

/-- What the callback does with one streamed entry: forward a reassembled
message, silently return success without forwarding (entry suppressed), or
terminate the query with an error. -/
inductive CallbackOutcome where
  | sent (msg : LdbMessage)
  | droppedEntry
  | failed (err : Nat)
deriving DecidableEq

/-- Mapping from the loop result to the callback outcome: abort fails the
query, dropEntry suppresses the entry, and a finished element list is
reassembled and forwarded (ldb_module_send_entry). -/
def aclread_loop_outcome (step : MsgElement → ElemStep) (dn : Dn)
    (els : List MsgElement) : CallbackOutcome :=
  match aclread_elements_loop step [] els with
  | .abort e => .failed e
  | .dropEntry => .droppedEntry
  | .elems l => .sent (aclread_reassemble dn l)

/-- The guard at acl_read.c:287: the parent-visibility check runs only when
the DN is not null and the instanceType of the entry (default 0) lacks the
partition-head bit. -/
def aclread_parent_check_needed (env : AclEnv) (msg : LdbMessage) : Bool :=
  !(ldb_dn_is_null msg.dn)
    && (env.msg_uint msg "instanceType" &&& INSTANCE_TYPE_IS_NC_HEAD = 0)

/-- Models the LDB_REPLY_ENTRY arm of aclread_callback (acl_read.c:256-459):
fetch the descriptor (any failure becomes an operations error), resolve the
structural class (failure is an operations error), extract the SID and
instanceType, run the parent-visibility check unless the DN is null or the
entry is a partition head (denial silently drops the entry, any other
failure fails the query), then run the per-element loop and reassemble. -/
def aclread_callback_entry (env : AclEnv) (ac : AclreadContext)
    (priv : AclreadPrivate) (msg : LdbMessage) :
    CallbackOutcome × AclreadContext × AclreadPrivate :=
  match aclread_get_sd_from_ldb_message env ac priv msg with
  | .error _ => (.failed LDB_ERR_OPERATIONS_ERROR, ac, priv)
  | .ok (sd, priv') =>
    match env.structural_oc msg with
    | none => (.failed LDB_ERR_OPERATIONS_ERROR, ac, priv')
    | some objectclass =>
      if aclread_parent_check_needed env msg then
        match aclread_check_parent env ac msg.dn with
        | (pret, ac') =>
          if pret = LDB_ERR_INSUFFICIENT_ACCESS_RIGHTS then
            (.droppedEntry, ac', priv')
          else if pret ≠ LDB_SUCCESS then
            (.failed pret, ac', priv')
          else
            (aclread_loop_outcome
               (aclread_element_step env ac' sd (env.result_dom_sid msg) objectclass)
               msg.dn msg.elements,
             ac', priv')
      else
        (aclread_loop_outcome
           (aclread_element_step env ac sd (env.result_dom_sid msg) objectclass)
           msg.dn msg.elements,
         ac, priv')

/- ## aclread_search (acl_read.c:474) -/

/-- The caller-visible search request as consumed by aclread_search: base DN,
whether the base is a special DN, the requested attribute list (none models a
NULL list), the dirsync custom flag, and the SD-flags granularity together
with whether an SD-flags control was explicitly supplied
(dsdb_request_sd_flags). -/
structure SearchInput where
  base : Dn
  base_special : Bool
  attrs : Option (List String)
  dirsync_flag : Bool
  sd_flags : Nat
  explicit_sd_flags : Bool
deriving DecidableEq

/-- The environment of aclread_search: the deployment switch, the
trusted-request predicates, the administrative base lookup (instanceType of
the base, or an error), the on-DN access check, and schema availability. -/
structure SearchEnv where
  enabled : Bool
  am_system : Bool
  as_system_control : Bool
  is_untrusted : Bool
  base_lookup : Except Nat Nat
  check_access_on_dn : Dn → Nat → Nat
  schema_ok : Bool

/-- Models the all-attributes determination at acl_read.c:557-566: a NULL
list, an empty list, or a list containing the wildcard. -/
def aclread_all_attrs (attrs : Option (List String)) : Bool :=
  match attrs with
  | none => true
  | some l => l.isEmpty || ldb_attr_in_list l "*"

/-- The attribute list after the NULL and empty normalisation of
acl_read.c:557-563 (both become the wildcard list). -/
def aclread_norm_attrs (attrs : Option (List String)) : List String :=
  match attrs with
  | none => ["*"]
  | some l => if l.isEmpty then ["*"] else l

/-- The need_sd decision of acl_read.c:575-581: the descriptor need not be
fetched when it is already in the (normalised) list, or when explicit
SD-flags came with an all-attributes request; it must be fetched
otherwise. -/
def aclread_need_sd (inp : SearchInput) : Bool :=
  if ldb_attr_in_list (aclread_norm_attrs inp.attrs) "nTSecurityDescriptor" then false
  else if inp.explicit_sd_flags && aclread_all_attrs inp.attrs then false
  else true

/-- The instanceType append condition of acl_read.c:584 (checked against the
normalised list). -/
def aclread_adds_instanceType (inp : SearchInput) : Bool :=
  !aclread_all_attrs inp.attrs
    && !ldb_attr_in_list (aclread_norm_attrs inp.attrs) "instanceType"

/-- The objectSid append condition of acl_read.c:591 (checked against the
original request list). -/
def aclread_adds_objectSid (inp : SearchInput) : Bool :=
  !aclread_all_attrs inp.attrs
    && !ldb_attr_in_list ((inp.attrs).getD []) "objectSid"

/-- The objectClass append condition of acl_read.c:598 (checked against the
original request list). -/
def aclread_adds_objectClass (inp : SearchInput) : Bool :=
  !aclread_all_attrs inp.attrs
    && !ldb_attr_in_list ((inp.attrs).getD []) "objectClass"

/-- The augmented fetch list: the conditional appends of acl_read.c:583-613
in program order. -/
def aclread_augmented_attrs (inp : SearchInput) : List String :=
  let attrs1 := if aclread_adds_instanceType inp
    then aclread_norm_attrs inp.attrs ++ ["instanceType"]
    else aclread_norm_attrs inp.attrs
  let attrs2 := if aclread_adds_objectSid inp then attrs1 ++ ["objectSid"] else attrs1
  let attrs3 := if aclread_adds_objectClass inp then attrs2 ++ ["objectClass"] else attrs2
  if aclread_need_sd inp then attrs3 ++ ["nTSecurityDescriptor"] else attrs3

/-- Models the query augmentation of aclread_search (acl_read.c:557-613):
decide whether the security descriptor must be fetched, append instanceType,
objectSid and objectClass for non-wildcard requests (flagging each
synthetic), append the descriptor when needed, and build the context handed
to the callback (talloc_zero gives the empty parent cache).  Returns the
augmented fetch list together with the context. -/
def aclread_augment (inp : SearchInput) : List String × AclreadContext :=
  (aclread_augmented_attrs inp,
   { attrs := inp.attrs
     sd_flags := inp.sd_flags
     added_nTSecurityDescriptor := aclread_need_sd inp
     added_instanceType := aclread_adds_instanceType inp
     added_objectSid := aclread_adds_objectSid inp
     added_objectClass := aclread_adds_objectClass inp
     indirsync := inp.dirsync_flag
     last_parent_dn := none
     last_parent_check_ret := 0 })

/-- Outcome of aclread_search before the downstream engine runs: pass the
request through unfiltered, fail it, or issue the augmented down request. -/
inductive SearchOutcome where
  | passthrough
  | failed (err : Nat)
  | down (attrs : List String) (ac : AclreadContext)
deriving DecidableEq

/-- The base-visibility gate of aclread_search (acl_read.c:512-540): for a
non-null base, fetch its instanceType administratively (failure fails the
query with that code); when the instanceType is non-zero and lacks the
partition-head bit, check SEC_ADS_LIST on the immediate parent of the base —
a denial fails the query with NO_SUCH_OBJECT, any other failure with the
underlying code.  none means the gate passes. -/
def aclread_search_gate (env : SearchEnv) (inp : SearchInput) : Option SearchOutcome :=
  if !(ldb_dn_is_null inp.base) then
    match env.base_lookup with
    | .error e => some (.failed e)
    | .ok instanceType =>
      if instanceType ≠ 0 && (instanceType &&& INSTANCE_TYPE_IS_NC_HEAD = 0) then
        if env.check_access_on_dn (ldb_dn_get_parent inp.base) SEC_ADS_LIST
             = LDB_ERR_INSUFFICIENT_ACCESS_RIGHTS then
          some (.failed LDB_ERR_NO_SUCH_OBJECT)
        else if env.check_access_on_dn (ldb_dn_get_parent inp.base) SEC_ADS_LIST
             ≠ LDB_SUCCESS then
          some (.failed (env.check_access_on_dn (ldb_dn_get_parent inp.base) SEC_ADS_LIST))
        else none
      else none
  else none

/-- Models aclread_search (acl_read.c:474-631): skip filtering for system or
trusted requests or special base DNs; run the base-visibility gate; then
augment the attribute list and issue the down request (a missing schema is
an operations error). -/
def aclread_search_model (env : SearchEnv) (inp : SearchInput) : SearchOutcome :=
  if !env.enabled || env.am_system || env.as_system_control || !env.is_untrusted then
    .passthrough
  else if inp.base_special then
    .passthrough
  else
    match aclread_search_gate env inp with
    | some out => out
    | none =>
      if !env.schema_ok then .failed LDB_ERR_OPERATIONS_ERROR
      else .down (aclread_augment inp).1 (aclread_augment inp).2

/- # Theorems -/

/- ## C7: parent-visibility cache correctness -/

/-- The single-slot parent cache is consistent with the access-check
primitive: whatever parent DN is cached, the cached verdict is what a fresh
check on that DN would return.  The access-check primitive is a pure
function of the DN for the duration of one query (the DB is read locked and
the session is constant, acl_read.c:117-121). -/
def ParentCacheConsistent (env : AclEnv) (ac : AclreadContext) : Prop :=
  ∀ d, ac.last_parent_dn = some d →
    ac.last_parent_check_ret = env.check_access_on_dn d SEC_ADS_LIST

theorem aclread_check_parent_fresh_correct (env : AclEnv) (ac : AclreadContext)
    (msgDn : Dn) :
    (aclread_check_parent_fresh env ac msgDn).1
      = env.check_access_on_dn (ldb_dn_get_parent msgDn) SEC_ADS_LIST ∧
    ParentCacheConsistent env (aclread_check_parent_fresh env ac msgDn).2 := by
  refine ⟨rfl, ?_⟩
  intro d hd
  simp only [aclread_check_parent_fresh, Option.some.injEq] at hd
  subst hd
  rfl

/-- C7: for every streamed entry, the verdict returned by the cached
parent-visibility check equals a fresh, uncached invocation of the
access-check primitive on the exact immediate parent of the entry, and the
cache stays consistent. -/
theorem aclread_check_parent_cache_correct (env : AclEnv) (ac : AclreadContext)
    (msgDn : Dn) (h : ParentCacheConsistent env ac) :
    (aclread_check_parent env ac msgDn).1
      = env.check_access_on_dn (ldb_dn_get_parent msgDn) SEC_ADS_LIST ∧
    ParentCacheConsistent env (aclread_check_parent env ac msgDn).2 := by
  unfold aclread_check_parent
  split
  · next last heq =>
    split
    · split
      · next hbase hpar => exact ⟨hpar ▸ h last heq, h⟩
      · exact aclread_check_parent_fresh_correct env ac msgDn
    · exact aclread_check_parent_fresh_correct env ac msgDn
  · exact aclread_check_parent_fresh_correct env ac msgDn

def envP : AclEnv :=
  { schema_attr := fun n => some ⟨n, 0⟩
    structural_oc := fun _ => some ⟨"user"⟩
    check_access_on_dn := fun d _ =>
      if d = ["ou=o", "dc=d"] then LDB_SUCCESS else LDB_ERR_INSUFFICIENT_ACCESS_RIGHTS
    check_access_on_attribute := fun _ _ _ _ _ => LDB_SUCCESS
    ndr_pull_security_descriptor := fun _ => some ⟨1⟩
    result_dom_sid := fun _ => some 1
    msg_uint := fun _ _ => 0
    attr_in_parse_tree := fun _ => false }

def acP : AclreadContext :=
  { attrs := some ["cn"]
    sd_flags := 15
    added_nTSecurityDescriptor := true
    added_instanceType := true
    added_objectSid := true
    added_objectClass := true
    indirsync := false
    last_parent_dn := some ["ou=o", "dc=d"]
    last_parent_check_ret := 0 }

theorem aclread_check_parent_cache_correct_witness :
    ParentCacheConsistent envP acP ∧
    (aclread_check_parent envP acP ["cn=u", "ou=o", "dc=d"]).1
      = envP.check_access_on_dn
          (ldb_dn_get_parent ["cn=u", "ou=o", "dc=d"]) SEC_ADS_LIST := by
  have hcons : ParentCacheConsistent envP acP := by
    intro d hd
    injection hd with h
    subst h
    rfl
  exact ⟨hcons,
    (aclread_check_parent_cache_correct envP acP ["cn=u", "ou=o", "dc=d"] hcons).1⟩

/- ## facts about the per-element step -/

/-- A kept element is the input element, possibly marked inaccessible. -/
theorem aclread_element_step_keep_cases {env : AclEnv} {ac : AclreadContext}
    {sd : SecurityDescriptor} {sid : Option DomSid} {oc : DsdbClass}
    {el el' : MsgElement}
    (h : aclread_element_step env ac sd sid oc el = .keep el') :
    el' = el ∨ el' = aclread_mark_inaccesslible el := by
  unfold aclread_element_step at h
  split at h
  · cases h
  · split_ifs at h <;> cases h <;> first | exact Or.inr rfl | exact Or.inl rfl

/-- The step never changes the name or the values of a kept element. -/
theorem aclread_element_step_keep_name {env : AclEnv} {ac : AclreadContext}
    {sd : SecurityDescriptor} {sid : Option DomSid} {oc : DsdbClass}
    {el el' : MsgElement}
    (h : aclread_element_step env ac sd sid oc el = .keep el') :
    el'.name = el.name ∧ el'.values = el.values := by
  rcases aclread_element_step_keep_cases h with h1 | h1 <;> subst h1 <;> exact ⟨rfl, rfl⟩

/-- In normal (non-dirsync) mode the loop never takes the break arm. -/
theorem aclread_element_step_no_break {env : AclEnv} {ac : AclreadContext}
    {sd : SecurityDescriptor} {sid : Option DomSid} {oc : DsdbClass}
    {el el' : MsgElement} (hm : ac.indirsync = false) :
    aclread_element_step env ac sd sid oc el ≠ .breakRemove el' := by
  intro h
  unfold aclread_element_step at h
  split at h
  · cases h
  · split_ifs at h <;> simp_all

/-- An element hitting one of the four synthetic-stripping guards is kept
marked inaccessible (acl_read.c:329-344). -/
theorem aclread_element_step_synthetic {env : AclEnv} {ac : AclreadContext}
    {sd : SecurityDescriptor} {sid : Option DomSid} {oc : DsdbClass}
    {el : MsgElement} {attr : DsdbAttribute}
    (hschema : env.schema_attr el.name = some attr)
    (hsyn : ((ldb_attr_cmp_eq "objectSid" el.name && ac.added_objectSid)
         || (ldb_attr_cmp_eq "instanceType" el.name && ac.added_instanceType)
         || (ldb_attr_cmp_eq "objectClass" el.name && ac.added_objectClass)
         || (ldb_attr_cmp_eq "nTSecurityDescriptor" el.name
               && ac.added_nTSecurityDescriptor)) = true) :
    aclread_element_step env ac sd sid oc el = .keep (aclread_mark_inaccesslible el) := by
  unfold aclread_element_step
  split
  · next heq => rw [hschema] at heq; cases heq
  · next attr2 heq =>
    rw [hschema] at heq
    injection heq with h2
    subst h2
    split_ifs <;> first | rfl | simp_all

/-- An element passing the synthetic guards whose access check denies is
handled by the denial policy of the mode (acl_read.c:384-412), normal-mode
form. -/
theorem aclread_element_step_denied_normal {env : AclEnv} {ac : AclreadContext}
    {sd : SecurityDescriptor} {sid : Option DomSid} {oc : DsdbClass}
    {el : MsgElement} {attr : DsdbAttribute}
    (hm : ac.indirsync = false)
    (hschema : env.schema_attr el.name = some attr)
    (hg1 : (ldb_attr_cmp_eq "objectSid" el.name && ac.added_objectSid) = false)
    (hg2 : (ldb_attr_cmp_eq "instanceType" el.name && ac.added_instanceType) = false)
    (hg3 : (ldb_attr_cmp_eq "objectClass" el.name && ac.added_objectClass) = false)
    (hg4 : (ldb_attr_cmp_eq "nTSecurityDescriptor" el.name
             && ac.added_nTSecurityDescriptor) = false)
    (hmask : aclread_access_mask ac.sd_flags
              (ldb_attr_cmp_eq "nTSecurityDescriptor" el.name) attr.searchFlags ≠ 0)
    (hdeny : env.check_access_on_attribute sd sid
              (aclread_access_mask ac.sd_flags
                (ldb_attr_cmp_eq "nTSecurityDescriptor" el.name) attr.searchFlags)
              attr oc = LDB_ERR_INSUFFICIENT_ACCESS_RIGHTS) :
    aclread_element_step env ac sd sid oc el =
      if env.attr_in_parse_tree el.name then .dropEntry
      else .keep (aclread_mark_inaccesslible el) := by
  unfold aclread_element_step
  split
  · next heq => rw [hschema] at heq; cases heq
  · next attr2 heq =>
    rw [hschema] at heq
    injection heq with h2
    subst h2
    split_ifs <;> simp_all

/-- Denial policy, dirsync-mode form: a filter-term attribute stops the loop
(break after removing replPropertyMetaData), any other denied attribute is
marked. -/
theorem aclread_element_step_denied_dirsync {env : AclEnv} {ac : AclreadContext}
    {sd : SecurityDescriptor} {sid : Option DomSid} {oc : DsdbClass}
    {el : MsgElement} {attr : DsdbAttribute}
    (hm : ac.indirsync = true)
    (hschema : env.schema_attr el.name = some attr)
    (hg1 : (ldb_attr_cmp_eq "objectSid" el.name && ac.added_objectSid) = false)
    (hg2 : (ldb_attr_cmp_eq "instanceType" el.name && ac.added_instanceType) = false)
    (hg3 : (ldb_attr_cmp_eq "objectClass" el.name && ac.added_objectClass) = false)
    (hg4 : (ldb_attr_cmp_eq "nTSecurityDescriptor" el.name
             && ac.added_nTSecurityDescriptor) = false)
    (hmask : aclread_access_mask ac.sd_flags
              (ldb_attr_cmp_eq "nTSecurityDescriptor" el.name) attr.searchFlags ≠ 0)
    (hdeny : env.check_access_on_attribute sd sid
              (aclread_access_mask ac.sd_flags
                (ldb_attr_cmp_eq "nTSecurityDescriptor" el.name) attr.searchFlags)
              attr oc = LDB_ERR_INSUFFICIENT_ACCESS_RIGHTS) :
    aclread_element_step env ac sd sid oc el =
      if env.attr_in_parse_tree el.name then .breakRemove el
      else .keep (aclread_mark_inaccesslible el) := by
  unfold aclread_element_step
  split
  · next heq => rw [hschema] at heq; cases heq
  · next attr2 heq =>
    rw [hschema] at heq
    injection heq with h2
    subst h2
    split_ifs <;> simp_all

/-- An element passing the synthetic guards whose access check grants is
kept untouched. -/
theorem aclread_element_step_granted {env : AclEnv} {ac : AclreadContext}
    {sd : SecurityDescriptor} {sid : Option DomSid} {oc : DsdbClass}
    {el : MsgElement} {attr : DsdbAttribute}
    (hschema : env.schema_attr el.name = some attr)
    (hg1 : (ldb_attr_cmp_eq "objectSid" el.name && ac.added_objectSid) = false)
    (hg2 : (ldb_attr_cmp_eq "instanceType" el.name && ac.added_instanceType) = false)
    (hg3 : (ldb_attr_cmp_eq "objectClass" el.name && ac.added_objectClass) = false)
    (hg4 : (ldb_attr_cmp_eq "nTSecurityDescriptor" el.name
             && ac.added_nTSecurityDescriptor) = false)
    (hmask : aclread_access_mask ac.sd_flags
              (ldb_attr_cmp_eq "nTSecurityDescriptor" el.name) attr.searchFlags ≠ 0)
    (hgrant : env.check_access_on_attribute sd sid
              (aclread_access_mask ac.sd_flags
                (ldb_attr_cmp_eq "nTSecurityDescriptor" el.name) attr.searchFlags)
              attr oc = LDB_SUCCESS) :
    aclread_element_step env ac sd sid oc el = .keep el := by
  unfold aclread_element_step
  split
  · next heq => rw [hschema] at heq; cases heq
  · next attr2 heq =>
    rw [hschema] at heq
    injection heq with h2
    subst h2
    split_ifs <;> simp_all [LDB_SUCCESS, LDB_ERR_INSUFFICIENT_ACCESS_RIGHTS]

/-- An element passing the synthetic guards whose computed mask is zero is
marked inaccessible without consulting the access-check primitive
(acl_read.c:366-369). -/
theorem aclread_element_step_zero_mask {env : AclEnv} {ac : AclreadContext}
    {sd : SecurityDescriptor} {sid : Option DomSid} {oc : DsdbClass}
    {el : MsgElement} {attr : DsdbAttribute}
    (hschema : env.schema_attr el.name = some attr)
    (hg1 : (ldb_attr_cmp_eq "objectSid" el.name && ac.added_objectSid) = false)
    (hg2 : (ldb_attr_cmp_eq "instanceType" el.name && ac.added_instanceType) = false)
    (hg3 : (ldb_attr_cmp_eq "objectClass" el.name && ac.added_objectClass) = false)
    (hg4 : (ldb_attr_cmp_eq "nTSecurityDescriptor" el.name
             && ac.added_nTSecurityDescriptor) = false)
    (hmask : aclread_access_mask ac.sd_flags
              (ldb_attr_cmp_eq "nTSecurityDescriptor" el.name) attr.searchFlags = 0) :
    aclread_element_step env ac sd sid oc el = .keep (aclread_mark_inaccesslible el) := by
  unfold aclread_element_step
  split
  · next heq => rw [hschema] at heq; cases heq
  · next attr2 heq =>
    rw [hschema] at heq
    injection heq with h2
    subst h2
    split_ifs <;> simp_all

/- ## facts about the loop -/

theorem aclread_elements_loop_cons_keep (step : MsgElement → ElemStep)
    (acc : List MsgElement) (el el' : MsgElement) (rest : List MsgElement)
    (he : step el = .keep el') :
    aclread_elements_loop step acc (el :: rest)
      = aclread_elements_loop step (acc ++ [el']) rest := by
  conv_lhs => unfold aclread_elements_loop
  rw [he]

theorem aclread_elements_loop_cons_abort (step : MsgElement → ElemStep)
    (acc : List MsgElement) (el : MsgElement) (rest : List MsgElement) (e : Nat)
    (he : step el = .abort e) :
    aclread_elements_loop step acc (el :: rest) = .abort e := by
  unfold aclread_elements_loop
  rw [he]

theorem aclread_elements_loop_cons_drop (step : MsgElement → ElemStep)
    (acc : List MsgElement) (el : MsgElement) (rest : List MsgElement)
    (he : step el = .dropEntry) :
    aclread_elements_loop step acc (el :: rest) = .dropEntry := by
  unfold aclread_elements_loop
  rw [he]

theorem aclread_elements_loop_cons_break (step : MsgElement → ElemStep)
    (acc : List MsgElement) (el el' : MsgElement) (rest : List MsgElement)
    (he : step el = .breakRemove el') :
    aclread_elements_loop step acc (el :: rest)
      = .elems (ldb_msg_remove_attr "replPropertyMetaData" (acc ++ el' :: rest)) := by
  unfold aclread_elements_loop
  rw [he]

/-- The element a keep step leaves in the message (identity for the other
arms, which never contribute an element). -/
def aclread_step_keep (step : MsgElement → ElemStep) (el : MsgElement) : MsgElement :=
  match step el with
  | .keep el' => el'
  | _ => el

/-- Running the loop over a prefix in which every step keeps its element
appends the kept elements to the accumulator and continues. -/
theorem aclread_elements_loop_keep_prefix (step : MsgElement → ElemStep)
    (pre : List MsgElement)
    (hpre : ∀ e ∈ pre, ∃ e', step e = .keep e') :
    ∀ acc rest,
      aclread_elements_loop step acc (pre ++ rest)
        = aclread_elements_loop step (acc ++ pre.map (aclread_step_keep step)) rest := by
  induction pre with
  | nil => intro acc rest; simp
  | cons el tl ih =>
    intro acc rest
    obtain ⟨el', he⟩ := hpre el (List.mem_cons_self _ _)
    have hk : aclread_step_keep step el = el' := by
      unfold aclread_step_keep
      rw [he]
    rw [List.cons_append,
        aclread_elements_loop_cons_keep step acc el el' (tl ++ rest) he,
        ih (fun e hm => hpre e (List.mem_cons_of_mem _ hm)) (acc ++ [el']) rest,
        List.map_cons, hk, List.append_assoc]
    rfl

/-- When the loop finishes with an element list and the step function never
breaks, every resulting element is either from the accumulator or the kept
image of some input element. -/
theorem aclread_elements_loop_mem (step : MsgElement → ElemStep)
    (hnb : ∀ el el', step el ≠ .breakRemove el') :
    ∀ l acc els, aclread_elements_loop step acc l = .elems els →
      ∀ e ∈ els, e ∈ acc ∨ ∃ e₀ ∈ l, step e₀ = .keep e := by
  intro l
  induction l with
  | nil =>
    intro acc els h e he
    unfold aclread_elements_loop at h
    injection h with h1
    subst h1
    exact Or.inl he
  | cons el tl ih =>
    intro acc els h e he
    cases hs : step el with
    | abort err => rw [aclread_elements_loop_cons_abort step acc el tl err hs] at h; cases h
    | dropEntry => rw [aclread_elements_loop_cons_drop step acc el tl hs] at h; cases h
    | breakRemove el' => exact absurd hs (hnb el el')
    | keep el' =>
      rw [aclread_elements_loop_cons_keep step acc el el' tl hs] at h
      rcases ih (acc ++ [el']) els h e he with hin | ⟨e₀, hm, hk⟩
      · rcases List.mem_append.mp hin with h1 | h1
        · exact Or.inl h1
        · have h2 : e = el' := by simpa using h1
          exact Or.inr ⟨el, List.mem_cons_self _ _, h2 ▸ hs⟩
      · exact Or.inr ⟨e₀, List.mem_cons_of_mem _ hm, hk⟩

/- ## facts about the callback -/

/-- aclread_check_parent only ever rewrites the two cache fields of the
context. -/
theorem aclread_check_parent_snd (env : AclEnv) (ac : AclreadContext) (msgDn : Dn) :
    ∃ p r, (aclread_check_parent env ac msgDn).2
      = { ac with last_parent_dn := p, last_parent_check_ret := r } := by
  unfold aclread_check_parent aclread_check_parent_fresh
  split
  · split
    · split
      · exact ⟨ac.last_parent_dn, ac.last_parent_check_ret, rfl⟩
      · exact ⟨some (ldb_dn_get_parent msgDn), _, rfl⟩
    · exact ⟨some (ldb_dn_get_parent msgDn), _, rfl⟩
  · exact ⟨some (ldb_dn_get_parent msgDn), _, rfl⟩

/-- The element step reads none of the cache fields, so running it with the
context returned by the parent check is the same as running it with the
original context. -/
theorem aclread_element_step_parent_update (env : AclEnv) (ac : AclreadContext)
    (msgDn : Dn) (sd : SecurityDescriptor) (sid : Option DomSid) (oc : DsdbClass) :
    aclread_element_step env (aclread_check_parent env ac msgDn).2 sd sid oc
      = aclread_element_step env ac sd sid oc := by
  obtain ⟨p, r, h⟩ := aclread_check_parent_snd env ac msgDn
  rw [h]
  rfl

/-- Entry visibility: either the parent check is not needed (null DN or
partition head) or it succeeds. -/
def EntryVisible (env : AclEnv) (ac : AclreadContext) (msg : LdbMessage) : Prop :=
  aclread_parent_check_needed env msg = false
  ∨ (aclread_check_parent env ac msg.dn).1 = LDB_SUCCESS

/-- For a visible entry the callback outcome is the outcome of the
per-element loop followed by reassembly. -/
theorem aclread_callback_entry_visible {env : AclEnv} {ac : AclreadContext}
    {priv : AclreadPrivate} {msg : LdbMessage} {sd : SecurityDescriptor}
    {priv' : AclreadPrivate} {oc : DsdbClass}
    (hg : aclread_get_sd_from_ldb_message env ac priv msg = .ok (sd, priv'))
    (ho : env.structural_oc msg = some oc)
    (hvis : EntryVisible env ac msg) :
    (aclread_callback_entry env ac priv msg).1
      = aclread_loop_outcome
          (aclread_element_step env ac sd (env.result_dom_sid msg) oc)
          msg.dn msg.elements := by
  simp only [aclread_callback_entry, hg, ho]
  by_cases hn : aclread_parent_check_needed env msg = true
  · rcases hcp : aclread_check_parent env ac msg.dn with ⟨pret, ac'⟩
    have hvs : pret = LDB_SUCCESS := by
      rcases hvis with hvis | hvis
      · rw [hn] at hvis; cases hvis
      · rw [hcp] at hvis; exact hvis
    have hac : ac' = (aclread_check_parent env ac msg.dn).2 := by rw [hcp]
    simp only [hn, if_true, hcp]
    rw [if_neg (by simp [hvs, LDB_SUCCESS, LDB_ERR_INSUFFICIENT_ACCESS_RIGHTS]),
        if_neg (by simp [hvs])]
    rw [hac, aclread_element_step_parent_update]
  · simp only [Bool.not_eq_true] at hn
    simp only [hn, Bool.false_eq_true, if_false]

/-- Inversion of the outcome mapping: a forwarded message comes from a
finished loop, reassembled. -/
theorem aclread_loop_outcome_sent_inv {step : MsgElement → ElemStep} {dn : Dn}
    {els0 : List MsgElement} {out : LdbMessage}
    (h : aclread_loop_outcome step dn els0 = .sent out) :
    ∃ els, aclread_elements_loop step [] els0 = .elems els
      ∧ out = aclread_reassemble dn els := by
  unfold aclread_loop_outcome at h
  cases hl : aclread_elements_loop step [] els0 with
  | abort e => rw [hl] at h; cases h
  | dropEntry => rw [hl] at h; cases h
  | elems l =>
    rw [hl] at h
    injection h with h1
    exact ⟨l, rfl, h1.symm⟩

/-- Inversion of the callback: a forwarded message presupposes a decoded
descriptor, a resolved structural class, and a finished loop whose result
was reassembled. -/
theorem aclread_callback_entry_sent_inv {env : AclEnv} {ac : AclreadContext}
    {priv : AclreadPrivate} {msg : LdbMessage} {out : LdbMessage}
    (h : (aclread_callback_entry env ac priv msg).1 = .sent out) :
    ∃ sd priv' oc els,
      aclread_get_sd_from_ldb_message env ac priv msg = .ok (sd, priv') ∧
      env.structural_oc msg = some oc ∧
      aclread_elements_loop
        (aclread_element_step env ac sd (env.result_dom_sid msg) oc)
        [] msg.elements = .elems els ∧
      out = aclread_reassemble msg.dn els := by
  cases hg : aclread_get_sd_from_ldb_message env ac priv msg with
  | error e =>
    simp only [aclread_callback_entry, hg] at h
    cases h
  | ok p =>
    obtain ⟨sd, priv'⟩ := p
    cases ho : env.structural_oc msg with
    | none =>
      simp only [aclread_callback_entry, hg, ho] at h
      cases h
    | some oc =>
      by_cases hn : aclread_parent_check_needed env msg = true
      · rcases hcp : aclread_check_parent env ac msg.dn with ⟨pret, ac'⟩
        simp only [aclread_callback_entry, hg, ho, hn, if_true, hcp] at h
        by_cases h1 : pret = LDB_ERR_INSUFFICIENT_ACCESS_RIGHTS
        · rw [if_pos h1] at h; cases h
        · rw [if_neg h1] at h
          by_cases h2 : pret ≠ LDB_SUCCESS
          · rw [if_pos h2] at h; cases h
          · rw [if_neg h2] at h
            have hac : ac' = (aclread_check_parent env ac msg.dn).2 := by rw [hcp]
            rw [hac, aclread_element_step_parent_update] at h
            obtain ⟨els, hl, hout⟩ := aclread_loop_outcome_sent_inv h
            exact ⟨sd, priv', oc, els, rfl, rfl, hl, hout⟩
      · simp only [Bool.not_eq_true] at hn
        simp only [aclread_callback_entry, hg, ho, hn, Bool.false_eq_true, if_false] at h
        obtain ⟨els, hl, hout⟩ := aclread_loop_outcome_sent_inv h
        exact ⟨sd, priv', oc, els, rfl, rfl, hl, hout⟩

/- ## C5: the per-attribute access mask -/

theorem nat_lor_eq_zero_iff (a b : Nat) : a ||| b = 0 ↔ a = 0 ∧ b = 0 := by
  constructor
  · intro h
    constructor
    · by_contra ha
      obtain ⟨i, hi⟩ := Nat.ne_zero_implies_bit_true ha
      have ht := Nat.testBit_lor a b i
      rw [h] at ht
      simp [hi] at ht
    · by_contra hb
      obtain ⟨i, hi⟩ := Nat.ne_zero_implies_bit_true hb
      have ht := Nat.testBit_lor a b i
      rw [h] at ht
      simp [hi] at ht
  · rintro ⟨rfl, rfl⟩
    rfl

/-- Testing the combined owner-group-DACL mask is the same as testing the
owner-group mask or the DACL mask, as the code does in two steps. -/
theorem sd_flags_ogd_split (x : Nat) :
    (x &&& (SECINFO_OWNER ||| SECINFO_GROUP ||| SECINFO_DACL) ≠ 0)
      ↔ (x &&& (SECINFO_OWNER ||| SECINFO_GROUP) ≠ 0 ∨ x &&& SECINFO_DACL ≠ 0) := by
  rw [Nat.and_or_distrib_left, ne_eq, nat_lor_eq_zero_iff]
  tauto

/-- The access mask exactly as the specification words it: for the
security-descriptor attribute, read-control when the requested granularity
includes owner, group, or DACL, plus system-security when SACL is requested;
read-property for every other attribute; and control-access added when the
schema metadata of the attribute carries the confidential search flag. -/
def spec_access_mask (sd_flags : Nat) (is_sd : Bool) (searchFlags : Nat) : Nat :=
  (if is_sd then
     (if sd_flags &&& (SECINFO_OWNER ||| SECINFO_GROUP ||| SECINFO_DACL) ≠ 0
        then SEC_STD_READ_CONTROL else 0)
     ||| (if sd_flags &&& SECINFO_SACL ≠ 0 then SEC_FLAG_SYSTEM_SECURITY else 0)
   else SEC_ADS_READ_PROP)
  ||| (if searchFlags &&& SEARCH_FLAG_CONFIDENTIAL ≠ 0
         then SEC_ADS_CONTROL_ACCESS else 0)

/-- C5: the required access mask is computed as the specification states
(first conjunct), and a zero mask marks the attribute inaccessible without
invoking the access-check primitive: the step result is the same for every
possible access-check function (second conjunct). -/
theorem aclread_access_mask_correct :
    (∀ sd_flags is_sd searchFlags,
       aclread_access_mask sd_flags is_sd searchFlags
         = spec_access_mask sd_flags is_sd searchFlags)
    ∧ (∀ (env : AclEnv) (ac : AclreadContext) (sd : SecurityDescriptor)
         (sid : Option DomSid) (oc : DsdbClass) (el : MsgElement)
         (attr : DsdbAttribute)
         (f : SecurityDescriptor → Option DomSid → Nat → DsdbAttribute → DsdbClass → Nat),
         env.schema_attr el.name = some attr →
         (ldb_attr_cmp_eq "objectSid" el.name && ac.added_objectSid) = false →
         (ldb_attr_cmp_eq "instanceType" el.name && ac.added_instanceType) = false →
         (ldb_attr_cmp_eq "objectClass" el.name && ac.added_objectClass) = false →
         (ldb_attr_cmp_eq "nTSecurityDescriptor" el.name
            && ac.added_nTSecurityDescriptor) = false →
         aclread_access_mask ac.sd_flags
           (ldb_attr_cmp_eq "nTSecurityDescriptor" el.name) attr.searchFlags = 0 →
         aclread_element_step { env with check_access_on_attribute := f } ac sd sid oc el
           = .keep (aclread_mark_inaccesslible el)) := by
  constructor
  · intro sd_flags is_sd searchFlags
    unfold aclread_access_mask spec_access_mask
    cases is_sd with
    | false =>
      by_cases hc : searchFlags &&& SEARCH_FLAG_CONFIDENTIAL ≠ 0 <;> simp [hc]
    | true =>
      by_cases h1 : sd_flags &&& (SECINFO_OWNER ||| SECINFO_GROUP) ≠ 0 <;>
      by_cases h2 : sd_flags &&& SECINFO_DACL ≠ 0 <;>
      by_cases h3 : sd_flags &&& SECINFO_SACL ≠ 0 <;>
      by_cases hc : searchFlags &&& SEARCH_FLAG_CONFIDENTIAL ≠ 0 <;>
        simp [sd_flags_ogd_split, h1, h2, h3, hc] <;> decide
  · intro env ac sd sid oc el attr f hschema hg1 hg2 hg3 hg4 hmask
    exact aclread_element_step_zero_mask hschema hg1 hg2 hg3 hg4 hmask

def acZ : AclreadContext :=
  { attrs := some ["nTSecurityDescriptor"]
    sd_flags := 0
    added_nTSecurityDescriptor := false
    added_instanceType := false
    added_objectSid := false
    added_objectClass := false
    indirsync := false
    last_parent_dn := none
    last_parent_check_ret := 0 }

def elZ : MsgElement := { name := "nTSecurityDescriptor", values := [[7]] }

def fZ : SecurityDescriptor → Option DomSid → Nat → DsdbAttribute → DsdbClass → Nat :=
  fun _ _ _ _ _ => 77

theorem aclread_access_mask_correct_witness :
    aclread_access_mask 0 true 0 = spec_access_mask 0 true 0 ∧
    envP.schema_attr elZ.name = some ⟨"nTSecurityDescriptor", 0⟩ ∧
    aclread_access_mask acZ.sd_flags
      (ldb_attr_cmp_eq "nTSecurityDescriptor" elZ.name) (0 : Nat) = 0 ∧
    aclread_element_step { envP with check_access_on_attribute := fZ }
      acZ ⟨1⟩ none ⟨"user"⟩ elZ = .keep (aclread_mark_inaccesslible elZ) :=
  ⟨aclread_access_mask_correct.1 0 true 0, rfl, by decide,
   aclread_access_mask_correct.2 envP acZ ⟨1⟩ none ⟨"user"⟩ elZ
     ⟨"nTSecurityDescriptor", 0⟩ fZ rfl (by decide) (by decide) (by decide)
     (by decide) (by decide)⟩

/- ## C6: base-visibility denial surfaces as NO_SUCH_OBJECT -/

/-- C6: for a non-null, non-special search base whose instanceType is
non-zero and lacks the partition-head bit, an insufficient-access denial of
the list-contents check on the immediate parent of the base fails the query
with NO_SUCH_OBJECT (not with the denial itself), and any other failure of
that check fails the query with the underlying code. -/
theorem aclread_search_base_denial (env : SearchEnv) (inp : SearchInput) (itype : Nat)
    (hact : (!env.enabled || env.am_system || env.as_system_control
               || !env.is_untrusted) = false)
    (hspec : inp.base_special = false)
    (hnn : ldb_dn_is_null inp.base = false)
    (hit : env.base_lookup = .ok itype)
    (hitnz : itype ≠ 0)
    (hnc : itype &&& INSTANCE_TYPE_IS_NC_HEAD = 0) :
    (env.check_access_on_dn (ldb_dn_get_parent inp.base) SEC_ADS_LIST
        = LDB_ERR_INSUFFICIENT_ACCESS_RIGHTS →
      aclread_search_model env inp = .failed LDB_ERR_NO_SUCH_OBJECT)
    ∧ (env.check_access_on_dn (ldb_dn_get_parent inp.base) SEC_ADS_LIST
          ≠ LDB_ERR_INSUFFICIENT_ACCESS_RIGHTS →
       env.check_access_on_dn (ldb_dn_get_parent inp.base) SEC_ADS_LIST
          ≠ LDB_SUCCESS →
       aclread_search_model env inp
         = .failed (env.check_access_on_dn (ldb_dn_get_parent inp.base)
                      SEC_ADS_LIST)) := by
  have hmodel : ∀ out, aclread_search_gate env inp = some out →
      aclread_search_model env inp = out := by
    intro out hg
    unfold aclread_search_model
    rw [if_neg (by simp [hact]), if_neg (by simp [hspec]), hg]
  constructor
  · intro hd
    apply hmodel
    unfold aclread_search_gate
    simp [hnn, hit, hitnz, hnc, hd]
  · intro hd1 hd2
    apply hmodel
    unfold aclread_search_gate
    simp [hnn, hit, hitnz, hnc, hd1, hd2]

def envS : SearchEnv :=
  { enabled := true
    am_system := false
    as_system_control := false
    is_untrusted := true
    base_lookup := .ok 4
    check_access_on_dn := fun _ _ => LDB_ERR_INSUFFICIENT_ACCESS_RIGHTS
    schema_ok := true }

def inpS : SearchInput :=
  { base := ["ou=o", "dc=d"]
    base_special := false
    attrs := some ["cn"]
    dirsync_flag := false
    sd_flags := 15
    explicit_sd_flags := false }

theorem aclread_search_base_denial_witness :
    envS.check_access_on_dn (ldb_dn_get_parent inpS.base) SEC_ADS_LIST
        = LDB_ERR_INSUFFICIENT_ACCESS_RIGHTS ∧
    aclread_search_model envS inpS = .failed LDB_ERR_NO_SUCH_OBJECT :=
  ⟨rfl, (aclread_search_base_denial envS inpS 4 rfl rfl rfl rfl
          (by decide) (by decide)).1 rfl⟩

/- ## C8: when the augmenter appends the security descriptor -/

/-- The caller explicitly asked for nTSecurityDescriptor by name. -/
def caller_requested_sd (attrs : Option (List String)) : Bool :=
  match attrs with
  | none => false
  | some l => ldb_attr_in_list l "nTSecurityDescriptor"

theorem ldb_attr_in_list_norm_sd (attrs : Option (List String)) :
    ldb_attr_in_list (aclread_norm_attrs attrs) "nTSecurityDescriptor"
      = caller_requested_sd attrs := by
  cases attrs with
  | none => decide
  | some l =>
    cases l with
    | nil => decide
    | cons a tl => simp [aclread_norm_attrs, caller_requested_sd]

theorem ldb_attr_cmp_eq_refl (x : String) : ldb_attr_cmp_eq x x = true := by
  simp [ldb_attr_cmp_eq]

theorem ldb_attr_in_list_append_self (l : List String) (x : String) :
    ldb_attr_in_list (l ++ [x]) x = true := by
  simp [ldb_attr_in_list, List.any_append, List.any_cons, ldb_attr_cmp_eq_refl]

/-- C8: the augmenter appends nTSecurityDescriptor and flags it synthetic
exactly when the caller did not already request it by name and it is not the
case that explicit SD-flags were supplied together with an all-attributes
request; whenever it is flagged it is present in the augmented fetch
list. -/
theorem aclread_augment_appends_sd_iff (inp : SearchInput) :
    ((aclread_augment inp).2.added_nTSecurityDescriptor = true
       ↔ (caller_requested_sd inp.attrs = false
          ∧ ¬(inp.explicit_sd_flags = true ∧ aclread_all_attrs inp.attrs = true)))
    ∧ ((aclread_augment inp).2.added_nTSecurityDescriptor = true →
        ldb_attr_in_list (aclread_augment inp).1 "nTSecurityDescriptor" = true) := by
  have hadd : (aclread_augment inp).2.added_nTSecurityDescriptor
      = aclread_need_sd inp := rfl
  have hfst : (aclread_augment inp).1 = aclread_augmented_attrs inp := rfl
  constructor
  · rw [hadd]
    unfold aclread_need_sd
    rw [ldb_attr_in_list_norm_sd]
    by_cases h1 : caller_requested_sd inp.attrs = true
    · simp [h1]
    · simp only [Bool.not_eq_true] at h1
      by_cases h2 : (inp.explicit_sd_flags && aclread_all_attrs inp.attrs) = true
      · rw [Bool.and_eq_true] at h2
        simp [h1, h2.1, h2.2]
      · rw [Bool.and_eq_true] at h2
        simp [h1, h2]
  · rw [hadd, hfst]
    intro h
    unfold aclread_augmented_attrs
    rw [h]
    simp only [if_true]
    exact ldb_attr_in_list_append_self _ _

theorem aclread_augment_appends_sd_iff_witness :
    (aclread_augment inpS).2.added_nTSecurityDescriptor = true ∧
    caller_requested_sd inpS.attrs = false ∧
    ldb_attr_in_list (aclread_augment inpS).1 "nTSecurityDescriptor" = true :=
  ⟨by decide, by decide, (aclread_augment_appends_sd_iff inpS).2 (by decide)⟩

/- ## C3: per-entry parent-visibility denial drops only that entry -/

/-- C3: for a streamed entry whose DN is not null and which is not a
partition head (so the parent check runs), an insufficient-access verdict of
the parent-visibility check makes the callback return success without
forwarding any message — the entry alone is silently dropped and the query
continues; any other non-success verdict terminates the whole query with
that code. -/
theorem aclread_parent_denial_drops_entry (env : AclEnv) (ac : AclreadContext)
    (priv : AclreadPrivate) (msg : LdbMessage) (sd : SecurityDescriptor)
    (priv' : AclreadPrivate) (oc : DsdbClass)
    (hsd : aclread_get_sd_from_ldb_message env ac priv msg = .ok (sd, priv'))
    (hoc : env.structural_oc msg = some oc)
    (hneed : aclread_parent_check_needed env msg = true) :
    ((aclread_check_parent env ac msg.dn).1 = LDB_ERR_INSUFFICIENT_ACCESS_RIGHTS →
       (aclread_callback_entry env ac priv msg).1 = .droppedEntry)
    ∧ ((aclread_check_parent env ac msg.dn).1 ≠ LDB_ERR_INSUFFICIENT_ACCESS_RIGHTS →
       (aclread_check_parent env ac msg.dn).1 ≠ LDB_SUCCESS →
       (aclread_callback_entry env ac priv msg).1
         = .failed (aclread_check_parent env ac msg.dn).1) := by
  constructor
  · intro hd
    simp only [aclread_callback_entry, hsd, hoc, hneed, if_true]
    rcases hcp : aclread_check_parent env ac msg.dn with ⟨pret, ac'⟩
    rw [hcp] at hd
    rw [if_pos hd]
  · intro h1 h2
    simp only [aclread_callback_entry, hsd, hoc, hneed, if_true]
    rcases hcp : aclread_check_parent env ac msg.dn with ⟨pret, ac'⟩
    rw [hcp] at h1 h2
    rw [if_neg h1, if_pos h2]

def envD : AclEnv :=
  { schema_attr := fun n => some ⟨n, 0⟩
    structural_oc := fun _ => some ⟨"user"⟩
    check_access_on_dn := fun _ _ => LDB_ERR_INSUFFICIENT_ACCESS_RIGHTS
    check_access_on_attribute := fun _ _ _ _ _ => LDB_SUCCESS
    ndr_pull_security_descriptor := fun _ => some ⟨1⟩
    result_dom_sid := fun _ => some 1
    msg_uint := fun _ _ => 0
    attr_in_parse_tree := fun _ => false }

def acM : AclreadContext :=
  { attrs := some ["cn"]
    sd_flags := 15
    added_nTSecurityDescriptor := false
    added_instanceType := false
    added_objectSid := false
    added_objectClass := false
    indirsync := false
    last_parent_dn := none
    last_parent_check_ret := 0 }

def privM : AclreadPrivate :=
  { enabled := true, sd_cached := none, sd_cached_blob := none }

def privM2 : AclreadPrivate :=
  { enabled := true, sd_cached := some ⟨1⟩, sd_cached_blob := some [7] }

def sdElM : MsgElement := { name := "nTSecurityDescriptor", values := [[7]] }

def cnElM : MsgElement := { name := "cn", values := [[1]] }

def msgM : LdbMessage := { dn := ["cn=u", "ou=o", "dc=d"], elements := [sdElM, cnElM] }

theorem aclread_parent_denial_drops_entry_witness :
    (aclread_check_parent envD acM msgM.dn).1 = LDB_ERR_INSUFFICIENT_ACCESS_RIGHTS ∧
    (aclread_callback_entry envD acM privM msgM).1 = .droppedEntry :=
  ⟨by decide,
   (aclread_parent_denial_drops_entry envD acM privM msgM ⟨1⟩ privM2 ⟨"user"⟩
      rfl rfl (by decide)).1 (by decide)⟩

/- ## C10: an entry whose every attribute is inaccessible is still forwarded -/

/-- C10: when the per-element loop finishes with every element marked
inaccessible, the entry is not suppressed: a message carrying the DN of the
entry and zero attributes is forwarded to the caller. -/
theorem aclread_all_inaccessible_still_sent (env : AclEnv) (ac : AclreadContext)
    (priv : AclreadPrivate) (msg : LdbMessage) (sd : SecurityDescriptor)
    (priv' : AclreadPrivate) (oc : DsdbClass) (els : List MsgElement)
    (hsd : aclread_get_sd_from_ldb_message env ac priv msg = .ok (sd, priv'))
    (hoc : env.structural_oc msg = some oc)
    (hvis : EntryVisible env ac msg)
    (hloop : aclread_elements_loop
        (aclread_element_step env ac sd (env.result_dom_sid msg) oc)
        [] msg.elements = .elems els)
    (hall : ∀ e ∈ els, aclread_is_inaccessible e = true) :
    (aclread_callback_entry env ac priv msg).1
      = .sent { dn := msg.dn, elements := [] } := by
  have hnil : els.filter (fun el => !aclread_is_inaccessible el) = [] := by
    rw [List.filter_eq_nil]
    intro a ha
    simp [hall a ha]
  rw [aclread_callback_entry_visible hsd hoc hvis]
  unfold aclread_loop_outcome
  rw [hloop]
  show CallbackOutcome.sent (aclread_reassemble msg.dn els)
      = CallbackOutcome.sent { dn := msg.dn, elements := [] }
  unfold aclread_reassemble
  rw [hnil]

def envG : AclEnv :=
  { schema_attr := fun n => some ⟨n, 0⟩
    structural_oc := fun _ => some ⟨"user"⟩
    check_access_on_dn := fun _ _ => LDB_SUCCESS
    check_access_on_attribute := fun _ _ _ _ _ => LDB_SUCCESS
    ndr_pull_security_descriptor := fun _ => some ⟨1⟩
    result_dom_sid := fun _ => some 1
    msg_uint := fun _ _ => 1
    attr_in_parse_tree := fun _ => false }

def acSyn : AclreadContext :=
  { attrs := some ["cn"]
    sd_flags := 15
    added_nTSecurityDescriptor := true
    added_instanceType := false
    added_objectSid := false
    added_objectClass := false
    indirsync := false
    last_parent_dn := none
    last_parent_check_ret := 0 }

def msgSd : LdbMessage := { dn := ["cn=u", "ou=o", "dc=d"], elements := [sdElM] }

theorem aclread_all_inaccessible_still_sent_witness :
    (∀ e ∈ (aclread_mark_inaccesslible sdElM) :: ([] : List MsgElement),
        aclread_is_inaccessible e = true) ∧
    (aclread_callback_entry envG acSyn privM msgSd).1
      = .sent { dn := msgSd.dn, elements := [] } := by
  refine ⟨by decide, ?_⟩
  exact aclread_all_inaccessible_still_sent envG acSyn privM msgSd ⟨1⟩ privM2
    ⟨"user"⟩ [aclread_mark_inaccesslible sdElM] rfl rfl
    (Or.inl (by decide)) (by decide) (by decide)

/- ## C1: a denied attribute never reaches the output -/

theorem aclread_access_mask_nonsd_ne_zero (f s : Nat) :
    aclread_access_mask f false s ≠ 0 := by
  unfold aclread_access_mask
  by_cases hc : s &&& SEARCH_FLAG_CONFIDENTIAL ≠ 0 <;> simp [hc] <;> decide

/-- C1: in normal (non-dirsync) mode, when the access-check primitive denies
the required mask on attribute A (read-property, plus control-access when
the schema marks A confidential — the mask the code computes for every
non-descriptor attribute), no element named A appears in the message
forwarded for the entry: the element is stripped during reassembly, or the
whole entry is suppressed. -/
theorem aclread_denied_attribute_absent (env : AclEnv) (ac : AclreadContext)
    (priv : AclreadPrivate) (msg out : LdbMessage) (sd : SecurityDescriptor)
    (priv' : AclreadPrivate) (oc : DsdbClass) (aName : String) (attr : DsdbAttribute)
    (hmode : ac.indirsync = false)
    (hsd : aclread_get_sd_from_ldb_message env ac priv msg = .ok (sd, priv'))
    (hoc : env.structural_oc msg = some oc)
    (hattr : env.schema_attr aName = some attr)
    (hnotsd : ldb_attr_cmp_eq "nTSecurityDescriptor" aName = false)
    (hdeny : env.check_access_on_attribute sd (env.result_dom_sid msg)
        (aclread_access_mask ac.sd_flags false attr.searchFlags) attr oc
        = LDB_ERR_INSUFFICIENT_ACCESS_RIGHTS)
    (hrun : (aclread_callback_entry env ac priv msg).1 = .sent out) :
    ∀ el ∈ out.elements, el.name ≠ aName := by
  obtain ⟨sd₂, priv₂, oc₂, els, hg₂, ho₂, hloop, hout⟩ :=
    aclread_callback_entry_sent_inv hrun
  rw [hsd] at hg₂
  injection hg₂ with hg₂
  injection hg₂ with hsd₂ hpriv₂
  subst hsd₂
  rw [hoc] at ho₂
  injection ho₂ with ho₂
  subst ho₂
  subst hout
  intro el hel hname
  have hel2 : el ∈ els ∧ (!aclread_is_inaccessible el) = true := by
    simpa [aclread_reassemble, List.mem_filter] using hel
  obtain ⟨helm, hacc⟩ := hel2
  have hnb : ∀ e e',
      aclread_element_step env ac sd (env.result_dom_sid msg) oc e
        ≠ .breakRemove e' :=
    fun e e' => aclread_element_step_no_break hmode
  rcases aclread_elements_loop_mem _ hnb _ _ _ hloop el helm with hin | ⟨e₀, hm₀, hk₀⟩
  · cases hin
  · have hname₀ : e₀.name = aName := by
      rw [← (aclread_element_step_keep_name hk₀).1]
      exact hname
    have hattr₀ : env.schema_attr e₀.name = some attr := by
      rw [hname₀]; exact hattr
    by_cases hsyn : ((ldb_attr_cmp_eq "objectSid" e₀.name && ac.added_objectSid)
         || (ldb_attr_cmp_eq "instanceType" e₀.name && ac.added_instanceType)
         || (ldb_attr_cmp_eq "objectClass" e₀.name && ac.added_objectClass)
         || (ldb_attr_cmp_eq "nTSecurityDescriptor" e₀.name
               && ac.added_nTSecurityDescriptor)) = true
    · have hstep := @aclread_element_step_synthetic env ac sd
        (env.result_dom_sid msg) oc e₀ attr hattr₀ hsyn
      rw [hk₀] at hstep
      injection hstep with h'
      rw [h'] at hacc
      simp [aclread_is_inaccessible, aclread_mark_inaccesslible] at hacc
    · simp only [Bool.or_eq_true, not_or, Bool.not_eq_true] at hsyn
      obtain ⟨⟨⟨hg1, hg2⟩, hg3⟩, hg4⟩ := hsyn
      have hnotsd₀ : ldb_attr_cmp_eq "nTSecurityDescriptor" e₀.name = false := by
        rw [hname₀]; exact hnotsd
      have hmask : aclread_access_mask ac.sd_flags
          (ldb_attr_cmp_eq "nTSecurityDescriptor" e₀.name) attr.searchFlags ≠ 0 := by
        rw [hnotsd₀]
        exact aclread_access_mask_nonsd_ne_zero _ _
      have hdeny₀ : env.check_access_on_attribute sd (env.result_dom_sid msg)
          (aclread_access_mask ac.sd_flags
            (ldb_attr_cmp_eq "nTSecurityDescriptor" e₀.name) attr.searchFlags) attr oc
          = LDB_ERR_INSUFFICIENT_ACCESS_RIGHTS := by
        rw [hnotsd₀]
        exact hdeny
      have hstep := aclread_element_step_denied_normal hmode hattr₀
        hg1 hg2 hg3 hg4 hmask hdeny₀
      rw [hk₀] at hstep
      by_cases hf : env.attr_in_parse_tree e₀.name = true
      · rw [if_pos hf] at hstep
        cases hstep
      · rw [if_neg hf] at hstep
        injection hstep with h'
        rw [h'] at hacc
        simp [aclread_is_inaccessible, aclread_mark_inaccesslible] at hacc

def envW1 : AclEnv :=
  { schema_attr := fun n => some ⟨n, 0⟩
    structural_oc := fun _ => some ⟨"user"⟩
    check_access_on_dn := fun _ _ => LDB_SUCCESS
    check_access_on_attribute := fun _ _ _ attr _ =>
      if attr.lDAPDisplayName == "cn" then LDB_ERR_INSUFFICIENT_ACCESS_RIGHTS
      else LDB_SUCCESS
    ndr_pull_security_descriptor := fun _ => some ⟨1⟩
    result_dom_sid := fun _ => some 1
    msg_uint := fun _ _ => 1
    attr_in_parse_tree := fun _ => false }

def outW1 : LdbMessage := { dn := msgM.dn, elements := [sdElM] }

theorem aclread_denied_attribute_absent_witness :
    acM.indirsync = false ∧
    (aclread_callback_entry envW1 acM privM msgM).1 = .sent outW1 ∧
    sdElM.name ≠ "cn" :=
  ⟨rfl, by decide,
   aclread_denied_attribute_absent envW1 acM privM msgM outW1 ⟨1⟩ privM2 ⟨"user"⟩
     "cn" ⟨"cn", 0⟩ rfl rfl rfl rfl (by decide) rfl (by decide)
     sdElM (by decide)⟩

/- ## C4: denial on a filter-term attribute suppresses the whole entry -/

theorem aclread_elements_loop_all_keep (step : MsgElement → ElemStep)
    (l : List MsgElement)
    (h : ∀ e ∈ l, ∃ e', step e = .keep e') (acc : List MsgElement) :
    aclread_elements_loop step acc l
      = .elems (acc ++ l.map (aclread_step_keep step)) := by
  have h2 := aclread_elements_loop_keep_prefix step l h acc []
  rw [List.append_nil] at h2
  exact h2.trans rfl

/-- C4: in normal mode, when the access check denies an attribute that
passed the synthetic guards, the callback suppresses the whole entry —
returning success without forwarding any message — exactly when the denied
attribute is a term of the search filter; when it is not, only that
attribute is marked inaccessible and the entry is still forwarded (given
that the rest of the loop keeps its elements). -/
theorem aclread_filter_term_denial_suppresses (env : AclEnv) (ac : AclreadContext)
    (priv : AclreadPrivate) (msg : LdbMessage) (sd : SecurityDescriptor)
    (priv' : AclreadPrivate) (oc : DsdbClass) (pre post : List MsgElement)
    (el : MsgElement) (attr : DsdbAttribute)
    (hmode : ac.indirsync = false)
    (hsd : aclread_get_sd_from_ldb_message env ac priv msg = .ok (sd, priv'))
    (hoc : env.structural_oc msg = some oc)
    (hvis : EntryVisible env ac msg)
    (hsplit : msg.elements = pre ++ el :: post)
    (hpre : ∀ e ∈ pre, ∃ e',
      aclread_element_step env ac sd (env.result_dom_sid msg) oc e = .keep e')
    (hattr : env.schema_attr el.name = some attr)
    (hg1 : (ldb_attr_cmp_eq "objectSid" el.name && ac.added_objectSid) = false)
    (hg2 : (ldb_attr_cmp_eq "instanceType" el.name && ac.added_instanceType) = false)
    (hg3 : (ldb_attr_cmp_eq "objectClass" el.name && ac.added_objectClass) = false)
    (hg4 : (ldb_attr_cmp_eq "nTSecurityDescriptor" el.name
             && ac.added_nTSecurityDescriptor) = false)
    (hmask : aclread_access_mask ac.sd_flags
              (ldb_attr_cmp_eq "nTSecurityDescriptor" el.name) attr.searchFlags ≠ 0)
    (hdeny : env.check_access_on_attribute sd (env.result_dom_sid msg)
              (aclread_access_mask ac.sd_flags
                (ldb_attr_cmp_eq "nTSecurityDescriptor" el.name) attr.searchFlags)
              attr oc = LDB_ERR_INSUFFICIENT_ACCESS_RIGHTS) :
    (env.attr_in_parse_tree el.name = true →
       (aclread_callback_entry env ac priv msg).1 = .droppedEntry)
    ∧ (env.attr_in_parse_tree el.name = false →
       (∀ e ∈ post, ∃ e',
          aclread_element_step env ac sd (env.result_dom_sid msg) oc e = .keep e') →
       (aclread_callback_entry env ac priv msg).1
         = .sent (aclread_reassemble msg.dn
             ((pre.map (aclread_step_keep
                 (aclread_element_step env ac sd (env.result_dom_sid msg) oc))
               ++ [aclread_mark_inaccesslible el])
              ++ post.map (aclread_step_keep
                 (aclread_element_step env ac sd (env.result_dom_sid msg) oc))))) := by
  have hstep := aclread_element_step_denied_normal hmode hattr hg1 hg2 hg3 hg4
    hmask hdeny
  have hcb := aclread_callback_entry_visible hsd hoc hvis
  constructor
  · intro hf
    rw [if_pos hf] at hstep
    rw [hcb]
    unfold aclread_loop_outcome
    rw [hsplit,
        aclread_elements_loop_keep_prefix
          (aclread_element_step env ac sd (env.result_dom_sid msg) oc) pre hpre
          [] (el :: post),
        aclread_elements_loop_cons_drop _ _ _ _ hstep]
  · intro hf hpost
    rw [if_neg (by simp [hf])] at hstep
    rw [hcb]
    unfold aclread_loop_outcome
    rw [hsplit,
        aclread_elements_loop_keep_prefix
          (aclread_element_step env ac sd (env.result_dom_sid msg) oc) pre hpre
          [] (el :: post),
        aclread_elements_loop_cons_keep _ _ _ _ _ hstep,
        aclread_elements_loop_all_keep _ post hpost]
    simp [List.nil_append]

def envC4 : AclEnv :=
  { schema_attr := fun n => some ⟨n, 0⟩
    structural_oc := fun _ => some ⟨"user"⟩
    check_access_on_dn := fun _ _ => LDB_SUCCESS
    check_access_on_attribute := fun _ _ _ attr _ =>
      if attr.lDAPDisplayName == "cn" then LDB_ERR_INSUFFICIENT_ACCESS_RIGHTS
      else LDB_SUCCESS
    ndr_pull_security_descriptor := fun _ => some ⟨1⟩
    result_dom_sid := fun _ => some 1
    msg_uint := fun _ _ => 1
    attr_in_parse_tree := fun n => n == "cn" }

theorem aclread_filter_term_denial_suppresses_witness :
    acM.indirsync = false ∧
    envC4.attr_in_parse_tree cnElM.name = true ∧
    (aclread_callback_entry envC4 acM privM msgM).1 = .droppedEntry :=
  ⟨rfl, rfl,
   (aclread_filter_term_denial_suppresses envC4 acM privM msgM ⟨1⟩ privM2 ⟨"user"⟩
      [sdElM] [] cnElM ⟨"cn", 0⟩ rfl rfl rfl (Or.inl (by decide)) rfl
      (by
        intro e he
        rw [List.mem_singleton] at he
        subst he
        exact ⟨sdElM, by decide⟩)
      rfl (by decide) (by decide) (by decide) (by decide) (by decide) rfl).1 rfl⟩

/- ## C9: the dirsync break stops the loop and returns the rest unchecked -/

theorem mem_ldb_msg_remove_attr {e : MsgElement} {l : List MsgElement} {n : String}
    (he : e ∈ l) (hne : ldb_attr_cmp_eq e.name n = false) :
    e ∈ ldb_msg_remove_attr n l := by
  unfold ldb_msg_remove_attr
  exact List.mem_filter.mpr ⟨he, by simp [hne]⟩

/-- C9: in dirsync (preserve-for-downstream) mode, when the access check
denies a filter-term attribute that passed the synthetic guards, the loop
stops at that element after removing replPropertyMetaData from the whole
message: the forwarded entry is the reassembly of the kept prefix, the
denied element itself, and the entire unprocessed suffix — later elements
receive no access check (the outcome does not depend on their verdicts),
and every unmarked later element that is not replPropertyMetaData is
forwarded, those synthetically added included. -/
theorem aclread_dirsync_break_returns_rest (env : AclEnv) (ac : AclreadContext)
    (priv : AclreadPrivate) (msg : LdbMessage) (sd : SecurityDescriptor)
    (priv' : AclreadPrivate) (oc : DsdbClass) (pre post : List MsgElement)
    (el : MsgElement) (attr : DsdbAttribute)
    (hmode : ac.indirsync = true)
    (hsd : aclread_get_sd_from_ldb_message env ac priv msg = .ok (sd, priv'))
    (hoc : env.structural_oc msg = some oc)
    (hvis : EntryVisible env ac msg)
    (hsplit : msg.elements = pre ++ el :: post)
    (hpre : ∀ e ∈ pre, ∃ e',
      aclread_element_step env ac sd (env.result_dom_sid msg) oc e = .keep e')
    (hattr : env.schema_attr el.name = some attr)
    (hg1 : (ldb_attr_cmp_eq "objectSid" el.name && ac.added_objectSid) = false)
    (hg2 : (ldb_attr_cmp_eq "instanceType" el.name && ac.added_instanceType) = false)
    (hg3 : (ldb_attr_cmp_eq "objectClass" el.name && ac.added_objectClass) = false)
    (hg4 : (ldb_attr_cmp_eq "nTSecurityDescriptor" el.name
             && ac.added_nTSecurityDescriptor) = false)
    (hmask : aclread_access_mask ac.sd_flags
              (ldb_attr_cmp_eq "nTSecurityDescriptor" el.name) attr.searchFlags ≠ 0)
    (hdeny : env.check_access_on_attribute sd (env.result_dom_sid msg)
              (aclread_access_mask ac.sd_flags
                (ldb_attr_cmp_eq "nTSecurityDescriptor" el.name) attr.searchFlags)
              attr oc = LDB_ERR_INSUFFICIENT_ACCESS_RIGHTS)
    (hf : env.attr_in_parse_tree el.name = true) :
    (aclread_callback_entry env ac priv msg).1
      = .sent (aclread_reassemble msg.dn
          (ldb_msg_remove_attr "replPropertyMetaData"
            (pre.map (aclread_step_keep
               (aclread_element_step env ac sd (env.result_dom_sid msg) oc))
             ++ el :: post)))
    ∧ (∀ e ∈ el :: post, aclread_is_inaccessible e = false →
        ldb_attr_cmp_eq e.name "replPropertyMetaData" = false →
        e ∈ (aclread_reassemble msg.dn
          (ldb_msg_remove_attr "replPropertyMetaData"
            (pre.map (aclread_step_keep
               (aclread_element_step env ac sd (env.result_dom_sid msg) oc))
             ++ el :: post))).elements) := by
  have hstep := aclread_element_step_denied_dirsync hmode hattr hg1 hg2 hg3 hg4
    hmask hdeny
  rw [if_pos hf] at hstep
  constructor
  · rw [aclread_callback_entry_visible hsd hoc hvis]
    unfold aclread_loop_outcome
    rw [hsplit,
        aclread_elements_loop_keep_prefix
          (aclread_element_step env ac sd (env.result_dom_sid msg) oc) pre hpre
          [] (el :: post),
        aclread_elements_loop_cons_break _ _ _ _ _ hstep]
    simp [List.nil_append]
  · intro e he hacc hne
    have hmem : e ∈ pre.map (aclread_step_keep
        (aclread_element_step env ac sd (env.result_dom_sid msg) oc))
        ++ el :: post :=
      List.mem_append_right _ he
    have hmem2 := mem_ldb_msg_remove_attr hmem hne
    simp only [aclread_reassemble, List.mem_filter]
    exact ⟨hmem2, by simpa [aclread_is_inaccessible] using hacc⟩

def acD : AclreadContext :=
  { acM with indirsync := true, added_objectSid := true }

def sidElM : MsgElement := { name := "objectSid", values := [[2]] }

def msgDS : LdbMessage :=
  { dn := ["cn=u", "ou=o", "dc=d"], elements := [sdElM, cnElM, sidElM] }

theorem aclread_dirsync_break_returns_rest_witness :
    acD.indirsync = true ∧
    (aclread_callback_entry envC4 acD privM msgDS).1
      = .sent { dn := msgDS.dn, elements := [sdElM, cnElM, sidElM] } ∧
    sidElM ∈ (aclread_reassemble msgDS.dn
        (ldb_msg_remove_attr "replPropertyMetaData"
          ([sdElM].map (aclread_step_keep
             (aclread_element_step envC4 acD ⟨1⟩ (envC4.result_dom_sid msgDS)
               ⟨"user"⟩))
           ++ cnElM :: [sidElM]))).elements :=
  ⟨rfl, by decide,
   (aclread_dirsync_break_returns_rest envC4 acD privM msgDS ⟨1⟩ privM2 ⟨"user"⟩
      [sdElM] [sidElM] cnElM ⟨"cn", 0⟩ rfl rfl rfl (Or.inl (by decide)) rfl
      (by
        intro e he
        rw [List.mem_singleton] at he
        subst he
        exact ⟨sdElM, by decide⟩)
      rfl (by decide) (by decide) (by decide) (by decide) (by decide) rfl rfl).2
     sidElM (by decide) rfl (by decide)⟩

/- ## C2: synthetic attributes are stripped from forwarded entries -/

/-- A kept, unmarked output element cannot come from an input element that
hits one of the synthetic-stripping guards: those are always marked. -/
theorem aclread_sent_element_not_marked_synthetic {env : AclEnv}
    {ac : AclreadContext} {sd : SecurityDescriptor} {sid : Option DomSid}
    {oc : DsdbClass} {e₀ el : MsgElement}
    (hk : aclread_element_step env ac sd sid oc e₀ = .keep el)
    (hacc : (!aclread_is_inaccessible el) = true)
    (hsyn : ((ldb_attr_cmp_eq "objectSid" e₀.name && ac.added_objectSid)
         || (ldb_attr_cmp_eq "instanceType" e₀.name && ac.added_instanceType)
         || (ldb_attr_cmp_eq "objectClass" e₀.name && ac.added_objectClass)
         || (ldb_attr_cmp_eq "nTSecurityDescriptor" e₀.name
               && ac.added_nTSecurityDescriptor)) = true) : False := by
  cases hs : env.schema_attr e₀.name with
  | none =>
    unfold aclread_element_step at hk
    rw [hs] at hk
    cases hk
  | some attr =>
    have hstep := @aclread_element_step_synthetic env ac sd sid oc e₀ attr hs hsyn
    rw [hk] at hstep
    injection hstep with h'
    rw [h'] at hacc
    simp [aclread_is_inaccessible, aclread_mark_inaccesslible] at hacc

/-- Counterexample to the unrestricted synthetic-attribute claim: in dirsync
mode, with objectSid synthetically added (the caller requested only cn), the
forwarded entry still contains objectSid, because the denied filter-term
attribute cn terminated the per-attribute loop before objectSid was
reached. -/
theorem aclread_synthetic_leak_dirsync_cex :
    acD.added_objectSid = true ∧
    acD.attrs = some ["cn"] ∧
    (aclread_callback_entry envC4 acD privM msgDS).1
      = .sent { dn := ["cn=u", "ou=o", "dc=d"], elements := [sdElM, cnElM, sidElM] } ∧
    (List.any [sdElM, cnElM, sidElM]
       (fun e => ldb_attr_cmp_eq "objectSid" e.name)) = true :=
  ⟨rfl, rfl, by decide, by decide⟩

/-- C2 (amended to normal mode): in normal (non-dirsync) mode, an attribute
synthetically added by the augmenter (objectSid, instanceType, objectClass
or nTSecurityDescriptor, per its added flag) never appears in a forwarded
entry; and an attribute whose synthetic flag is not set is unaffected by the
stripping: it takes the ordinary access-check path, and a granted check
keeps it unchanged. -/
theorem aclread_synthetic_stripped_normal (env : AclEnv) (ac : AclreadContext)
    (priv : AclreadPrivate) (msg out : LdbMessage)
    (hmode : ac.indirsync = false)
    (hrun : (aclread_callback_entry env ac priv msg).1 = .sent out) :
    (∀ el ∈ out.elements,
       (ac.added_objectSid = true → ldb_attr_cmp_eq "objectSid" el.name = false)
       ∧ (ac.added_instanceType = true
            → ldb_attr_cmp_eq "instanceType" el.name = false)
       ∧ (ac.added_objectClass = true
            → ldb_attr_cmp_eq "objectClass" el.name = false)
       ∧ (ac.added_nTSecurityDescriptor = true
            → ldb_attr_cmp_eq "nTSecurityDescriptor" el.name = false))
    ∧ (∀ (sd : SecurityDescriptor) (sid : Option DomSid) (oc : DsdbClass)
         (el : MsgElement) (attr : DsdbAttribute),
         env.schema_attr el.name = some attr →
         (ldb_attr_cmp_eq "objectSid" el.name && ac.added_objectSid) = false →
         (ldb_attr_cmp_eq "instanceType" el.name && ac.added_instanceType) = false →
         (ldb_attr_cmp_eq "objectClass" el.name && ac.added_objectClass) = false →
         (ldb_attr_cmp_eq "nTSecurityDescriptor" el.name
            && ac.added_nTSecurityDescriptor) = false →
         aclread_access_mask ac.sd_flags
           (ldb_attr_cmp_eq "nTSecurityDescriptor" el.name) attr.searchFlags ≠ 0 →
         env.check_access_on_attribute sd sid
           (aclread_access_mask ac.sd_flags
             (ldb_attr_cmp_eq "nTSecurityDescriptor" el.name) attr.searchFlags)
           attr oc = LDB_SUCCESS →
         aclread_element_step env ac sd sid oc el = .keep el) := by
  constructor
  · intro el hel
    obtain ⟨sd, priv₂, oc, els, hg, ho, hloop, hout⟩ :=
      aclread_callback_entry_sent_inv hrun
    subst hout
    have hel2 : el ∈ els ∧ (!aclread_is_inaccessible el) = true := by
      simpa [aclread_reassemble, List.mem_filter] using hel
    obtain ⟨helm, hacc⟩ := hel2
    have hnb : ∀ e e',
        aclread_element_step env ac sd (env.result_dom_sid msg) oc e
          ≠ .breakRemove e' :=
      fun e e' => aclread_element_step_no_break hmode
    rcases aclread_elements_loop_mem _ hnb _ _ _ hloop el helm
      with hin | ⟨e₀, hm₀, hk₀⟩
    · cases hin
    · have hname₀ : el.name = e₀.name := (aclread_element_step_keep_name hk₀).1
      refine ⟨?_, ?_, ?_, ?_⟩
      · intro hadd
        by_contra hcmp
        rw [Bool.not_eq_false] at hcmp
        rw [hname₀] at hcmp
        exact aclread_sent_element_not_marked_synthetic hk₀ hacc
          (by simp [hcmp, hadd])
      · intro hadd
        by_contra hcmp
        rw [Bool.not_eq_false] at hcmp
        rw [hname₀] at hcmp
        exact aclread_sent_element_not_marked_synthetic hk₀ hacc
          (by simp [hcmp, hadd])
      · intro hadd
        by_contra hcmp
        rw [Bool.not_eq_false] at hcmp
        rw [hname₀] at hcmp
        exact aclread_sent_element_not_marked_synthetic hk₀ hacc
          (by simp [hcmp, hadd])
      · intro hadd
        by_contra hcmp
        rw [Bool.not_eq_false] at hcmp
        rw [hname₀] at hcmp
        exact aclread_sent_element_not_marked_synthetic hk₀ hacc
          (by simp [hcmp, hadd])
  · intro sd sid oc el attr h1 h2 h3 h4 h5 h6 h7
    exact aclread_element_step_granted h1 h2 h3 h4 h5 h6 h7

def acW2 : AclreadContext := { acM with added_objectSid := true }

def outW2 : LdbMessage := { dn := msgDS.dn, elements := [sdElM, cnElM] }

theorem aclread_synthetic_stripped_normal_witness :
    acW2.indirsync = false ∧
    (aclread_callback_entry envG acW2 privM msgDS).1 = .sent outW2 ∧
    ldb_attr_cmp_eq "objectSid" sdElM.name = false ∧
    ldb_attr_cmp_eq "objectSid" cnElM.name = false :=
  ⟨rfl, by decide,
   ((aclread_synthetic_stripped_normal envG acW2 privM msgDS outW2 rfl
       (by decide)).1 sdElM (by decide)).1 rfl,
   ((aclread_synthetic_stripped_normal envG acW2 privM msgDS outW2 rfl
       (by decide)).1 cnElM (by decide)).1 rfl⟩
